import Mathlib

/-!
Shallow embedding of the story-element vote store from `src/api/rpg_stories.py`.

The backing JSON file is modelled by `FileState`: it is either absent,
present but unparsable (`corrupt`), or present and parsed to a list of
records (`valid`).  Python exceptions that escape a store operation are
modelled with `Except StoreError`; operations whose source handles all
failures internally are plain total functions.  Python `int` ids are
modelled as `Int` (they may be negative); counters are `Nat`.
-/

/-- One record of the store: a dict
`{id, category, element, love, skip}` in the source. -/
structure StoryElement where
  id : Nat
  category : String
  element : String
  love : Nat
  skip : Nat
deriving DecidableEq, Inhabited

/-- Which counter a vote targets (the `field` argument of `_vote_story`). -/
inductive VoteField where
  | love
  | skip
deriving DecidableEq, Inhabited

/-- The counter not targeted by a vote. -/
def VoteField.other : VoteField → VoteField
  | .love => .skip
  | .skip => .love

/-- State of the backing file `story_elements.json`. -/
inductive FileState where
  | absent
  | corrupt
  | valid (data : List StoryElement)
deriving DecidableEq, Inhabited

/-- Python exceptions that can escape a store operation. -/
inductive StoreError where
  | fileNotFound
  | jsonDecode
deriving DecidableEq, Inhabited

/-- The fixed seed catalog `story_data_initial`: 6 categories of 8 prompts
each, in source order (Python dicts preserve insertion order). -/
def story_data_initial : List (String × List String) := [
  ("Main Plot Hooks", [
    "A mysterious plague is turning villagers to stone",
    "An ancient prophecy predicts the chosen one\x27s arrival",
    "The king has been replaced by a doppelganger",
    "A dragon demands tribute from the local village",
    "Strange portals are opening across the realm",
    "An old friend sends a desperate letter asking for help",
    "A valuable artifact has been stolen from the temple",
    "The moon hasn\x27t risen for three nights in a row"]),
  ("Side Quests", [
    "Help the baker retrieve stolen recipes from bandits",
    "Investigate mysterious sounds in the abandoned mill",
    "Escort a merchant caravan through dangerous territory",
    "Find a rare herb to cure the herbalist\x27s sick child",
    "Solve the riddle of the ancient standing stones",
    "Help reunite two star-crossed lovers from rival families",
    "Track down a mischievous sprite causing havoc in town",
    "Recover a family heirloom from a haunted mansion"]),
  ("Character Motivations", [
    "Seeking revenge for a loved one\x27s death",
    "Trying to prove themselves to their family",
    "Running from a dark past",
    "Searching for a missing person",
    "Driven by insatiable curiosity",
    "Protecting their homeland from danger",
    "Seeking redemption for past mistakes",
    "Pursuing wealth and fame"]),
  ("Locations", [
    "A bustling port city with diverse cultures",
    "An ancient forest filled with magical creatures",
    "A mysterious floating island in the sky",
    "Underground caverns with bioluminescent fungi",
    "A desert oasis hiding ancient secrets",
    "A frozen tundra with ice castles",
    "A volcanic region with fire elementals",
    "A haunted swamp with will-o\x27-wisps"]),
  ("NPCs", [
    "A wise old wizard with a mysterious past",
    "A cunning thief with a heart of gold",
    "A gruff blacksmith hiding a gentle soul",
    "A cheerful innkeeper who knows everyone\x27s secrets",
    "A noble knight struggling with their vows",
    "A street urchin with surprising knowledge",
    "A eccentric inventor creating magical devices",
    "A mysterious fortune teller who speaks in riddles"]),
  ("Twists", [
    "The villain is actually trying to prevent a greater evil",
    "The quest giver has been lying about their true intentions",
    "The artifact is cursed and corrupts those who possess it",
    "Time is running backwards in this location",
    "The party member is secretly a spy",
    "The monster is actually an enchanted person",
    "The treasure map leads to a trap",
    "The prophecy was a trick to manipulate events"])]

/-- Inner loop of `initStoryElements`: records of one category, ids from `n`. -/
def buildCategory (cat : String) : List String → Nat → List StoryElement
  | [], _ => []
  | t :: ts, n =>
    { id := n, category := cat, element := t, love := 0, skip := 0 } ::
      buildCategory cat ts (n + 1)

/-- Outer loop of `initStoryElements`: flatten the catalog with a running
`item_id` counter. -/
def buildRecords : List (String × List String) → Nat → List StoryElement
  | [], _ => []
  | (cat, elems) :: rest, n =>
    buildCategory cat elems n ++ buildRecords rest (n + elems.length)

/-- The 48 freshly built records, before the demo vote pre-seeding. -/
def initialData : List StoryElement := buildRecords story_data_initial 0

/-- `e[field] += 1` on a single record. -/
def incField (f : VoteField) (e : StoryElement) : StoryElement :=
  match f with
  | .love => { e with love := e.love + 1 }
  | .skip => { e with skip := e.skip + 1 }

/-- Read the counter named by `f` (`e[field]` in the source). -/
def fieldGet (f : VoteField) (e : StoryElement) : Nat :=
  match f with
  | .love => e.love
  | .skip => e.skip

/-- `elements[i][field] += 1`: increment the named counter of record `i`,
leaving any other position untouched (no-op when `i` is out of range). -/
def incAt : List StoryElement → Nat → VoteField → List StoryElement
  | [], _, _ => []
  | e :: rest, 0, f => incField f e :: rest
  | e :: rest, Nat.succ n, f => e :: incAt rest n f

/-- The demo pre-seeding of `initStoryElements`: 15 draws of
`random.randint(0, 47)` each add one love vote, then 8 draws each add one
skip vote.  The random draws are the parameters `loves` and `skips`. -/
def seedData (loves : Fin 15 → Fin 48) (skips : Fin 8 → Fin 48) :
    List StoryElement :=
  let d1 := (List.finRange 15).foldl
    (fun d i => incAt d (loves i).val VoteField.love) initialData
  (List.finRange 8).foldl (fun d i => incAt d (skips i).val VoteField.skip) d1

/-- `initStoryElements()`: a no-op when the backing file exists (whether
parsable or not); otherwise build, pre-seed and persist the catalog. -/
def initStoryElements (s : FileState)
    (loves : Fin 15 → Fin 48) (skips : Fin 8 → Fin 48) : FileState :=
  match s with
  | .absent => .valid (seedData loves skips)
  | s => s

/-- `json.load` on an open backing file: fails on unparsable contents. -/
def jsonLoad : FileState → Except StoreError (List StoryElement)
  | .absent => .error .fileNotFound
  | .corrupt => .error .jsonDecode
  | .valid d => .ok d

/-- `_read_story_file()`: missing file gives `[]`; a `json.load` failure is
caught and gives `[]`; otherwise the parsed records. -/
def readStoryFile (s : FileState) : List StoryElement :=
  match s with
  | .absent => []
  | s =>
    match jsonLoad s with
    | .ok d => d
    | .error _ => []

/-- `getStoryElements()`. -/
def getStoryElements (s : FileState) : List StoryElement := readStoryFile s

/-- `getStoryElement(id)`: bounds-checked positional lookup. -/
def getStoryElement (s : FileState) (id : Int) : Option StoryElement :=
  let elements := readStoryFile s
  if 0 ≤ id ∧ id < (elements.length : Int) then elements[id.toNat]? else none

/-- `getRandomStoryElement()`; the random draw is the parameter `pick`
(`random.choice` returns the element at some index of the list). -/
def getRandomStoryElement (s : FileState) (pick : Nat) : Option StoryElement :=
  let elements := readStoryFile s
  if elements.isEmpty then none else elements[pick % elements.length]?

/-- `getStoryElementsByCategory(category)`. -/
def getStoryElementsByCategory (s : FileState) (category : String) :
    List StoryElement :=
  (readStoryFile s).filter (fun e => e.category = category)

/-- Python `max(elements, key=key)`: first element with maximal key, `None`
on an empty list. -/
def maxByKey (key : StoryElement → Nat) :
    List StoryElement → Option StoryElement
  | [] => none
  | e :: rest =>
    some (rest.foldl (fun best x => if key best < key x then x else best) e)

/-- `getMostLovedElement()`. -/
def getMostLovedElement (s : FileState) : Option StoryElement :=
  maxByKey (fun e => e.love) (readStoryFile s)

/-- `getMostSkippedElement()`. -/
def getMostSkippedElement (s : FileState) : Option StoryElement :=
  maxByKey (fun e => e.skip) (readStoryFile s)

/-- `countStoryElements()`. -/
def countStoryElements (s : FileState) : Nat := (readStoryFile s).length

/-- `getCategories()`: distinct categories, sorted ascending. -/
def getCategories (s : FileState) : List String :=
  List.insertionSort (fun a b => a < b)
    ((readStoryFile s).map (fun e => e.category)).dedup

/-- `_vote_story(id, field)`: `open(STORY_FILE, 'r+')` raises when the file
is absent; the unguarded `json.load` raises on unparsable contents; in
range, increment record `id`, write the whole list back and return the
updated counter read from the updated list; out of range, no write and
`None`. -/
def voteStory (s : FileState) (id : Int) (f : VoteField) :
    Except StoreError (FileState × Option Nat) :=
  match s with
  | .absent => .error .fileNotFound
  | s =>
    match jsonLoad s with
    | .error e => .error e
    | .ok elements =>
      if 0 ≤ id ∧ id < (elements.length : Int) then
        let elements' := incAt elements id.toNat f
        .ok (.valid elements',
          some (fieldGet f (elements'.getD id.toNat default)))
      else
        .ok (.valid elements, none)

/-- `addStoryLove(id)`. -/
def addStoryLove (s : FileState) (id : Int) :
    Except StoreError (FileState × Option Nat) :=
  voteStory s id VoteField.love

/-- `addStorySkip(id)`. -/
def addStorySkip (s : FileState) (id : Int) :
    Except StoreError (FileState × Option Nat) :=
  voteStory s id VoteField.skip

/-- Sum of all love counters. -/
def sumLove (d : List StoryElement) : Nat := (d.map (fun e => e.love)).sum

/-- Sum of all skip counters. -/
def sumSkip (d : List StoryElement) : Nat := (d.map (fun e => e.skip)).sum

/-- States reachable from a fresh `initStoryElements()` on a missing file by
any sequence of successful vote operations. -/
inductive Reachable : FileState → Prop
  | init (loves : Fin 15 → Fin 48) (skips : Fin 8 → Fin 48) :
      Reachable (initStoryElements FileState.absent loves skips)
  | vote (s s' : FileState) (id : Int) (f : VoteField) (v : Option Nat) :
      Reachable s → voteStory s id f = Except.ok (s', v) → Reachable s'

/-! ### Basic lemmas about single-record increments -/

theorem incField_id (f : VoteField) (e : StoryElement) :
    (incField f e).id = e.id := by cases f <;> rfl

theorem incField_category (f : VoteField) (e : StoryElement) :
    (incField f e).category = e.category := by cases f <;> rfl

theorem incField_element (f : VoteField) (e : StoryElement) :
    (incField f e).element = e.element := by cases f <;> rfl

theorem fieldGet_incField_self (f : VoteField) (e : StoryElement) :
    fieldGet f (incField f e) = fieldGet f e + 1 := by cases f <;> rfl

theorem fieldGet_incField_other (f : VoteField) (e : StoryElement) :
    fieldGet f.other (incField f e) = fieldGet f.other e := by cases f <;> rfl

theorem love_le_incField (f : VoteField) (e : StoryElement) :
    e.love ≤ (incField f e).love := by
  cases f <;> simp [incField]

theorem skip_le_incField (f : VoteField) (e : StoryElement) :
    e.skip ≤ (incField f e).skip := by
  cases f <;> simp [incField]

/-! ### Lemmas about `incAt` -/

theorem incAt_length (d : List StoryElement) (i : Nat) (f : VoteField) :
    (incAt d i f).length = d.length := by
  induction d generalizing i with
  | nil => rfl
  | cons e rest ih =>
    cases i with
    | zero => rfl
    | succ n => simp [incAt, ih]

theorem incAt_getElem?_self (d : List StoryElement) (i : Nat) (f : VoteField) :
    (incAt d i f)[i]? = (d[i]?).map (incField f) := by
  induction d generalizing i with
  | nil => simp [incAt]
  | cons e rest ih =>
    cases i with
    | zero => simp [incAt]
    | succ n => simpa [incAt] using ih n

theorem incAt_getElem?_ne (d : List StoryElement) (i j : Nat) (f : VoteField)
    (h : j ≠ i) : (incAt d i f)[j]? = d[j]? := by
  induction d generalizing i j with
  | nil => simp [incAt]
  | cons e rest ih =>
    cases i with
    | zero =>
      cases j with
      | zero => exact absurd rfl h
      | succ m => simp [incAt]
    | succ n =>
      cases j with
      | zero => simp [incAt]
      | succ m => simpa [incAt] using ih n m (by omega)

theorem incAt_map {α : Type} (g : StoryElement → α)
    (hg : ∀ f e, g (incField f e) = g e) (d : List StoryElement) (i : Nat)
    (f : VoteField) : (incAt d i f).map g = d.map g := by
  induction d generalizing i with
  | nil => rfl
  | cons e rest ih =>
    cases i with
    | zero => simp [incAt, hg]
    | succ n => simp [incAt, ih]

theorem foldl_incAt_map {α β : Type} (g : StoryElement → α)
    (hg : ∀ f e, g (incField f e) = g e) (ps : List β) (pf : β → Nat)
    (f : VoteField) (d : List StoryElement) :
    (ps.foldl (fun acc p => incAt acc (pf p) f) d).map g = d.map g := by
  induction ps generalizing d with
  | nil => rfl
  | cons p ps ih => simp [List.foldl_cons, ih, incAt_map g hg]

theorem foldl_incAt_length {β : Type} (ps : List β) (pf : β → Nat)
    (f : VoteField) (d : List StoryElement) :
    (ps.foldl (fun acc p => incAt acc (pf p) f) d).length = d.length := by
  induction ps generalizing d with
  | nil => rfl
  | cons p ps ih => simp [List.foldl_cons, ih, incAt_length]

/-! ### Counter sums under increments -/

theorem sumLove_cons (e : StoryElement) (rest : List StoryElement) :
    sumLove (e :: rest) = e.love + sumLove rest := by
  simp [sumLove]

theorem sumSkip_cons (e : StoryElement) (rest : List StoryElement) :
    sumSkip (e :: rest) = e.skip + sumSkip rest := by
  simp [sumSkip]

theorem sumLove_incAt_love (d : List StoryElement) (i : Nat)
    (h : i < d.length) :
    sumLove (incAt d i VoteField.love) = sumLove d + 1 := by
  induction d generalizing i with
  | nil => simp at h
  | cons e rest ih =>
    cases i with
    | zero => simp [incAt, sumLove_cons, incField]; omega
    | succ n =>
      have := ih n (by simpa using h)
      simp [incAt, sumLove_cons, this]; omega

theorem sumLove_incAt_skip (d : List StoryElement) (i : Nat) :
    sumLove (incAt d i VoteField.skip) = sumLove d := by
  induction d generalizing i with
  | nil => rfl
  | cons e rest ih =>
    cases i with
    | zero => simp [incAt, sumLove_cons, incField]
    | succ n => simp [incAt, sumLove_cons, ih]

theorem sumSkip_incAt_skip (d : List StoryElement) (i : Nat)
    (h : i < d.length) :
    sumSkip (incAt d i VoteField.skip) = sumSkip d + 1 := by
  induction d generalizing i with
  | nil => simp at h
  | cons e rest ih =>
    cases i with
    | zero => simp [incAt, sumSkip_cons, incField]; omega
    | succ n =>
      have := ih n (by simpa using h)
      simp [incAt, sumSkip_cons, this]; omega

theorem sumSkip_incAt_love (d : List StoryElement) (i : Nat) :
    sumSkip (incAt d i VoteField.love) = sumSkip d := by
  induction d generalizing i with
  | nil => rfl
  | cons e rest ih =>
    cases i with
    | zero => simp [incAt, sumSkip_cons, incField]
    | succ n => simp [incAt, sumSkip_cons, ih]

theorem sumLove_foldl_love {β : Type} (ps : List β) (pf : β → Nat)
    (d : List StoryElement) (h : ∀ p ∈ ps, pf p < d.length) :
    sumLove (ps.foldl (fun acc p => incAt acc (pf p) VoteField.love) d) =
      sumLove d + ps.length := by
  induction ps generalizing d with
  | nil => rfl
  | cons p ps ih =>
    simp only [List.foldl_cons, List.length_cons]
    rw [ih _ (by intro q hq; rw [incAt_length]; exact h q (by simp [hq])),
      sumLove_incAt_love _ _ (h p (by simp))]
    omega

theorem sumLove_foldl_skip {β : Type} (ps : List β) (pf : β → Nat)
    (d : List StoryElement) :
    sumLove (ps.foldl (fun acc p => incAt acc (pf p) VoteField.skip) d) =
      sumLove d := by
  induction ps generalizing d with
  | nil => rfl
  | cons p ps ih => simp [List.foldl_cons, ih, sumLove_incAt_skip]

theorem sumSkip_foldl_skip {β : Type} (ps : List β) (pf : β → Nat)
    (d : List StoryElement) (h : ∀ p ∈ ps, pf p < d.length) :
    sumSkip (ps.foldl (fun acc p => incAt acc (pf p) VoteField.skip) d) =
      sumSkip d + ps.length := by
  induction ps generalizing d with
  | nil => rfl
  | cons p ps ih =>
    simp only [List.foldl_cons, List.length_cons]
    rw [ih _ (by intro q hq; rw [incAt_length]; exact h q (by simp [hq])),
      sumSkip_incAt_skip _ _ (h p (by simp))]
    omega

theorem initialData_length : initialData.length = 48 := by decide

theorem seedData_length (loves : Fin 15 → Fin 48) (skips : Fin 8 → Fin 48) :
    (seedData loves skips).length = 48 := by
  simp [seedData, foldl_incAt_length, initialData_length]

theorem seedData_map {α : Type} (g : StoryElement → α)
    (hg : ∀ f e, g (incField f e) = g e)
    (loves : Fin 15 → Fin 48) (skips : Fin 8 → Fin 48) :
    (seedData loves skips).map g = initialData.map g := by
  simp [seedData, foldl_incAt_map g hg]

theorem sumSkip_foldl_love {β : Type} (ps : List β) (pf : β → Nat)
    (d : List StoryElement) :
    sumSkip (ps.foldl (fun acc p => incAt acc (pf p) VoteField.love) d) =
      sumSkip d := by
  induction ps generalizing d with
  | nil => rfl
  | cons p ps ih => simp [List.foldl_cons, ih, sumSkip_incAt_love]

theorem sumLove_initialData : sumLove initialData = 0 := by decide

theorem sumSkip_initialData : sumSkip initialData = 0 := by decide

theorem sumLove_seedData (loves : Fin 15 → Fin 48) (skips : Fin 8 → Fin 48) :
    sumLove (seedData loves skips) = 15 := by
  simp only [seedData]
  rw [sumLove_foldl_skip,
    sumLove_foldl_love _ _ _
      (by intro p _; rw [initialData_length]; exact (loves p).isLt)]
  simp [sumLove_initialData]

theorem sumSkip_seedData (loves : Fin 15 → Fin 48) (skips : Fin 8 → Fin 48) :
    sumSkip (seedData loves skips) = 8 := by
  simp only [seedData]
  rw [sumSkip_foldl_skip _ _ _
      (by intro p _
          rw [foldl_incAt_length, initialData_length]
          exact (skips p).isLt),
    sumSkip_foldl_love]
  simp [sumSkip_initialData]

/-- Bridge from `List.getD` (used for the value `_vote_story` returns) to
`getElem?`. -/
theorem getD_of_getElem? (l : List StoryElement) (i : Nat) (a : StoryElement)
    (h : l[i]? = some a) : l.getD i default = a := by
  induction l generalizing i with
  | nil => simp at h
  | cons e rest ih =>
    cases i with
    | zero => simp_all [List.getD]
    | succ n =>
      simp only [List.getElem?_cons_succ] at h
      simpa [List.getD] using ih n h

/-! ### Positional-id invariant -/

/-- The record stored at position `i` carries id field `i`. -/
def posIds (d : List StoryElement) : Prop :=
  ∀ (i : Nat) (e : StoryElement), d[i]? = some e → e.id = i

theorem initialData_id (i : Nat) (h : i < 48) :
    (initialData[i]?).map StoryElement.id = some i := by
  revert i h; decide

theorem posIds_initialData : posIds initialData := by
  unfold posIds
  intro i e he
  by_cases h : i < 48
  · have := initialData_id i h
    rw [he] at this
    simpa using this
  · rw [List.getElem?_eq_none (by rw [initialData_length]; omega)] at he
    cases he

theorem posIds_of_map_id (d1 d2 : List StoryElement)
    (h : d1.map StoryElement.id = d2.map StoryElement.id)
    (h2 : posIds d2) : posIds d1 := by
  unfold posIds
  intro i e he
  have hm : (d1[i]?).map StoryElement.id = (d2[i]?).map StoryElement.id := by
    rw [← List.getElem?_map, ← List.getElem?_map, h]
  rw [he] at hm
  match hd : d2[i]? with
  | none => rw [hd] at hm; simp at hm
  | some e2 =>
    rw [hd] at hm
    simp only [Option.map_some'] at hm
    rw [Option.some.injEq] at hm
    rw [hm]
    exact h2 i e2 hd

theorem posIds_seedData (loves : Fin 15 → Fin 48) (skips : Fin 8 → Fin 48) :
    posIds (seedData loves skips) :=
  posIds_of_map_id _ _
    (seedData_map StoryElement.id (fun f e => incField_id f e) loves skips)
    posIds_initialData

theorem posIds_incAt (d : List StoryElement) (i : Nat) (f : VoteField)
    (h : posIds d) : posIds (incAt d i f) :=
  posIds_of_map_id _ _
    (incAt_map StoryElement.id (fun f e => incField_id f e) d i f) h

/-! ### Shape of reachable states -/

theorem reachable_valid_posIds (s : FileState) (h : Reachable s) :
    ∃ d, s = FileState.valid d ∧ posIds d := by
  induction h with
  | init loves skips => exact ⟨seedData loves skips, rfl, posIds_seedData _ _⟩
  | vote s s' id f v hr hv ih =>
    obtain ⟨d, rfl, hp⟩ := ih
    simp only [voteStory, jsonLoad] at hv
    split at hv
    · rw [Except.ok.injEq, Prod.mk.injEq] at hv
      exact ⟨_, hv.1.symm, posIds_incAt d id.toNat f hp⟩
    · rw [Except.ok.injEq, Prod.mk.injEq] at hv
      exact ⟨d, hv.1.symm, hp⟩

/-- Two concrete records used to instantiate theorems with hypotheses. -/
def sampleData : List StoryElement :=
  [{ id := 0, category := "NPCs", element := "first", love := 0, skip := 0 },
   { id := 1, category := "Twists", element := "second", love := 2, skip := 3 }]

/-- A concrete choice for the 15 love pre-seed draws. -/
def pickL : Fin 15 → Fin 48 := fun _ => 0

/-- A concrete choice for the 8 skip pre-seed draws. -/
def pickS : Fin 8 → Fin 48 := fun _ => 0

/-! ### Concrete facts about the freshly built catalog -/

theorem initialData_cat (i : Nat) (h : i < 48) :
    (initialData[i]?).map StoryElement.category =
      (story_data_initial[i / 8]?).map (fun c => c.1) := by
  revert i h; decide

theorem initialData_elem (i : Nat) (h : i < 48) :
    (initialData[i]?).map StoryElement.element =
      (story_data_initial[i / 8]?).bind (fun c => c.2[i % 8]?) := by
  revert i h; decide

theorem catalog_shape :
    story_data_initial.length = 6 ∧
      ∀ j : Nat, j < 6 →
        (story_data_initial[j]?).map (fun c => c.2.length) = some 8 := by
  decide

theorem seedData_getElem?_map {α : Type} (g : StoryElement → α)
    (hg : ∀ f e, g (incField f e) = g e)
    (loves : Fin 15 → Fin 48) (skips : Fin 8 → Fin 48) (i : Nat) :
    ((seedData loves skips)[i]?).map g = (initialData[i]?).map g := by
  calc ((seedData loves skips)[i]?).map g
      = ((seedData loves skips).map g)[i]? := (List.getElem?_map ..).symm
    _ = (initialData.map g)[i]? := by rw [seedData_map g hg]
    _ = (initialData[i]?).map g := List.getElem?_map ..

/-! ### Claim theorems -/

/-- C10: immediately after a fresh `initialize()` on an absent backing
file, the love counters of the 48 records sum to exactly 15 and the skip
counters sum to exactly 8, whatever the random pre-seeding draws were. -/
theorem claim_C10_seed_vote_totals
    (loves : Fin 15 → Fin 48) (skips : Fin 8 → Fin 48) :
    sumLove (readStoryFile (initStoryElements FileState.absent loves skips))
        = 15 ∧
    sumSkip (readStoryFile (initStoryElements FileState.absent loves skips))
        = 8 :=
  ⟨sumLove_seedData loves skips, sumSkip_seedData loves skips⟩

/-- C6: when the backing store is absent, `initialize()` creates exactly 48
records (6 catalog categories of 8 entries each), assigns dense ids 0–47 in
catalog order — record `i` belongs to catalog category `i / 8` and carries
its entry `i % 8` — and persists the result. -/
theorem claim_C6_init_builds_catalog
    (loves : Fin 15 → Fin 48) (skips : Fin 8 → Fin 48) :
    (readStoryFile (initStoryElements FileState.absent loves skips)).length
        = 48 ∧
    initStoryElements FileState.absent loves skips =
      FileState.valid
        (readStoryFile (initStoryElements FileState.absent loves skips)) ∧
    story_data_initial.length = 6 ∧
    (∀ j : Nat, j < 6 →
      (story_data_initial[j]?).map (fun c => c.2.length) = some 8) ∧
    (∀ i : Nat, i < 48 →
      ((readStoryFile (initStoryElements FileState.absent loves skips))[i]?).map
          StoryElement.id = some i ∧
      ((readStoryFile (initStoryElements FileState.absent loves skips))[i]?).map
          StoryElement.category =
        (story_data_initial[i / 8]?).map (fun c => c.1) ∧
      ((readStoryFile (initStoryElements FileState.absent loves skips))[i]?).map
          StoryElement.element =
        (story_data_initial[i / 8]?).bind (fun c => c.2[i % 8]?)) := by
  refine ⟨seedData_length loves skips, rfl, catalog_shape.1, catalog_shape.2,
    fun i hi => ⟨?_, ?_, ?_⟩⟩
  · rw [show readStoryFile (initStoryElements FileState.absent loves skips)
        = seedData loves skips from rfl,
      seedData_getElem?_map StoryElement.id (fun f e => incField_id f e)]
    exact initialData_id i hi
  · rw [show readStoryFile (initStoryElements FileState.absent loves skips)
        = seedData loves skips from rfl,
      seedData_getElem?_map StoryElement.category
        (fun f e => incField_category f e)]
    exact initialData_cat i hi
  · rw [show readStoryFile (initStoryElements FileState.absent loves skips)
        = seedData loves skips from rfl,
      seedData_getElem?_map StoryElement.element
        (fun f e => incField_element f e)]
    exact initialData_elem i hi

/-- C6 witness: the theorem applied to a concrete choice of random draws
and to position 3, all hypotheses discharged there. -/
theorem claim_C6_witness :
    (readStoryFile (initStoryElements FileState.absent pickL pickS)).length
        = 48 ∧
    ((readStoryFile (initStoryElements FileState.absent pickL pickS))[3]?).map
        StoryElement.id = some 3 ∧
    ((readStoryFile (initStoryElements FileState.absent pickL pickS))[3]?).map
        StoryElement.category =
      (story_data_initial[3 / 8]?).map (fun c => c.1) ∧
    (story_data_initial[0]?).map (fun c => c.2.length) = some 8 := by
  have h := claim_C6_init_builds_catalog pickL pickS
  exact ⟨h.1, (h.2.2.2.2 3 (by decide)).1, (h.2.2.2.2 3 (by decide)).2.1,
    h.2.2.2.1 0 (by decide)⟩

/-- C7: a second `initialize()` immediately after a first one is a no-op:
the store state (hence record count and all counters) is exactly the state
after the first call, for every starting state and every random draws. -/
theorem claim_C7_init_idempotent (s : FileState)
    (l1 : Fin 15 → Fin 48) (k1 : Fin 8 → Fin 48)
    (l2 : Fin 15 → Fin 48) (k2 : Fin 8 → Fin 48) :
    initStoryElements (initStoryElements s l1 k1) l2 k2 =
      initStoryElements s l1 k1 := by
  cases s <;> rfl

/-- C8: an unparsable backing file is treated as an empty collection by
every read operation: zero records, `none` for single-record reads, and no
parse error propagated (the read operations are total). -/
theorem claim_C8_corrupt_reads_empty (id : Int) (category : String)
    (pick : Nat) :
    getStoryElements FileState.corrupt = [] ∧
    getStoryElement FileState.corrupt id = none ∧
    getRandomStoryElement FileState.corrupt pick = none ∧
    getStoryElementsByCategory FileState.corrupt category = [] ∧
    getMostLovedElement FileState.corrupt = none ∧
    getMostSkippedElement FileState.corrupt = none ∧
    countStoryElements FileState.corrupt = 0 ∧
    getCategories FileState.corrupt = [] := by
  refine ⟨rfl, ?_, rfl, rfl, rfl, rfl, rfl, rfl⟩
  simp only [getStoryElement, readStoryFile, jsonLoad, List.length_nil]
  rw [if_neg (by omega)]

/-- C1: a single in-range `increment(id, field)` raises exactly that
record's named counter by 1, leaves its other counter, id, category and
element unchanged, leaves every other record unchanged, writes the updated
collection back, and returns the updated counter value. -/
theorem claim_C1_increment_frame (d : List StoryElement) (id : Int)
    (f : VoteField) (h0 : 0 ≤ id) (h1 : id < (d.length : Int)) :
    ∃ e, d[id.toNat]? = some e ∧
      voteStory (FileState.valid d) id f =
        Except.ok (FileState.valid (incAt d id.toNat f),
          some (fieldGet f e + 1)) ∧
      (incAt d id.toNat f)[id.toNat]? = some (incField f e) ∧
      (incField f e).id = e.id ∧
      (incField f e).category = e.category ∧
      (incField f e).element = e.element ∧
      fieldGet f.other (incField f e) = fieldGet f.other e ∧
      fieldGet f (incField f e) = fieldGet f e + 1 ∧
      (∀ j : Nat, j ≠ id.toNat → (incAt d id.toNat f)[j]? = d[j]?) := by
  have hlt : id.toNat < d.length := by omega
  obtain ⟨e, he⟩ : ∃ e, d[id.toNat]? = some e :=
    ⟨d[id.toNat], List.getElem?_eq_getElem hlt⟩
  have hself : (incAt d id.toNat f)[id.toNat]? = some (incField f e) := by
    rw [incAt_getElem?_self, he]
    rfl
  refine ⟨e, he, ?_, hself, incField_id f e, incField_category f e,
    incField_element f e, fieldGet_incField_other f e,
    fieldGet_incField_self f e,
    fun j hj => incAt_getElem?_ne d id.toNat j f hj⟩
  simp only [voteStory, jsonLoad]
  rw [if_pos ⟨h0, h1⟩, getD_of_getElem? _ _ _ hself, fieldGet_incField_self]

/-- C1 witness: the theorem applied to a concrete two-record store at
id 1 with the love field, all hypotheses discharged there. -/
theorem claim_C1_witness :
    (0 : Int) ≤ 1 ∧ (1 : Int) < (sampleData.length : Int) ∧
    (∃ e, sampleData[(1 : Int).toNat]? = some e ∧
      voteStory (FileState.valid sampleData) 1 VoteField.love =
        Except.ok
          (FileState.valid (incAt sampleData (1 : Int).toNat VoteField.love),
          some (fieldGet VoteField.love e + 1)) ∧
      (incAt sampleData (1 : Int).toNat VoteField.love)[(1 : Int).toNat]? =
        some (incField VoteField.love e) ∧
      (incField VoteField.love e).id = e.id ∧
      (incField VoteField.love e).category = e.category ∧
      (incField VoteField.love e).element = e.element ∧
      fieldGet VoteField.love.other (incField VoteField.love e) =
        fieldGet VoteField.love.other e ∧
      fieldGet VoteField.love (incField VoteField.love e) =
        fieldGet VoteField.love e + 1 ∧
      (∀ j : Nat, j ≠ (1 : Int).toNat →
        (incAt sampleData (1 : Int).toNat VoteField.love)[j]? =
          sampleData[j]?)) :=
  ⟨by decide, by decide,
    claim_C1_increment_frame sampleData 1 VoteField.love (by decide)
      (by decide)⟩

/-- C2: an out-of-range id (negative included) makes `increment` return
`None` with the persisted collection left exactly as it was: no write on
the error path. -/
theorem claim_C2_out_of_range_no_write (d : List StoryElement) (id : Int)
    (f : VoteField) (h : id < 0 ∨ (d.length : Int) ≤ id) :
    voteStory (FileState.valid d) id f =
      Except.ok (FileState.valid d, none) := by
  simp only [voteStory, jsonLoad]
  rw [if_neg (by omega)]

/-- C2 witness: the theorem applied to a concrete store at id -1. -/
theorem claim_C2_witness :
    ((-1 : Int) < 0 ∨ (sampleData.length : Int) ≤ -1) ∧
    voteStory (FileState.valid sampleData) (-1) VoteField.love =
      Except.ok (FileState.valid sampleData, none) :=
  ⟨Or.inl (by decide),
    claim_C2_out_of_range_no_write sampleData (-1) VoteField.love
      (Or.inl (by decide))⟩

/-- C4: `get(id)` returns the record stored at position `id` whenever
`0 <= id < count`, and `None` (never an unhandled fault: the operation is a
total function) whenever `id` is out of range, in every file state. -/
theorem claim_C4_get_bounds (s : FileState) (id : Int) :
    ((0 ≤ id ∧ id < ((readStoryFile s).length : Int)) →
      getStoryElement s id = (readStoryFile s)[id.toNat]? ∧
      ∃ e, (readStoryFile s)[id.toNat]? = some e) ∧
    (¬(0 ≤ id ∧ id < ((readStoryFile s).length : Int)) →
      getStoryElement s id = none) := by
  constructor
  · intro h
    refine ⟨?_, (readStoryFile s)[id.toNat],
      List.getElem?_eq_getElem (by omega)⟩
    simp only [getStoryElement]
    rw [if_pos h]
  · intro h
    simp only [getStoryElement]
    rw [if_neg h]

/-- C4 witness: the theorem applied to a concrete two-record store, once
in range (id 0) and once out of range (id 5). -/
theorem claim_C4_witness :
    ((0 : Int) ≤ 0 ∧
      (0 : Int) < ((readStoryFile (FileState.valid sampleData)).length : Int)) ∧
    (getStoryElement (FileState.valid sampleData) 0 =
        (readStoryFile (FileState.valid sampleData))[(0 : Int).toNat]? ∧
      ∃ e, (readStoryFile (FileState.valid sampleData))[(0 : Int).toNat]? =
        some e) ∧
    getStoryElement (FileState.valid sampleData) 5 = none :=
  ⟨⟨by decide, by decide⟩,
    (claim_C4_get_bounds (FileState.valid sampleData) 0).1
      ⟨by decide, by decide⟩,
    (claim_C4_get_bounds (FileState.valid sampleData) 5).2 (by decide)⟩

/-- C3 counterexample: on a present but unparsable backing file the
increment operation propagates the parse exception to its caller instead
of converting it to a sentinel result. -/
theorem claim_C3_counterexample :
    voteStory FileState.corrupt 0 VoteField.love =
      Except.error StoreError.jsonDecode := rfl

/-- C3 (amended): the read operations convert every backing-file failure
into sentinel empty/not-found results, but the increment operation
propagates an exception to its caller exactly when the backing file is
absent or unparsable. -/
theorem claim_C3_amended_error_boundary (s : FileState) (id : Int)
    (f : VoteField) :
    ((s = FileState.absent ∨ s = FileState.corrupt) →
      getStoryElements s = [] ∧ getStoryElement s id = none ∧
      getMostLovedElement s = none ∧ getMostSkippedElement s = none ∧
      countStoryElements s = 0) ∧
    ((∃ err, voteStory s id f = Except.error err) ↔
      (s = FileState.absent ∨ s = FileState.corrupt)) := by
  constructor
  · rintro (rfl | rfl)
    · refine ⟨rfl, ?_, rfl, rfl, rfl⟩
      simp only [getStoryElement, readStoryFile, List.length_nil]
      rw [if_neg (by omega)]
    · refine ⟨rfl, ?_, rfl, rfl, rfl⟩
      simp only [getStoryElement, readStoryFile, jsonLoad, List.length_nil]
      rw [if_neg (by omega)]
  · constructor
    · rintro ⟨err, herr⟩
      match s with
      | FileState.absent => exact Or.inl rfl
      | FileState.corrupt => exact Or.inr rfl
      | FileState.valid d =>
        exfalso
        simp only [voteStory, jsonLoad] at herr
        split at herr <;> exact Except.noConfusion herr
    · rintro (rfl | rfl)
      · exact ⟨StoreError.fileNotFound, rfl⟩
      · exact ⟨StoreError.jsonDecode, rfl⟩

/-- C3 witness: the amended theorem applied to the unparsable file state,
with the read-path implication discharged there. -/
theorem claim_C3_witness :
    (FileState.corrupt = FileState.absent ∨
      FileState.corrupt = FileState.corrupt) ∧
    (getStoryElements FileState.corrupt = [] ∧
      getStoryElement FileState.corrupt 0 = none ∧
      getMostLovedElement FileState.corrupt = none ∧
      getMostSkippedElement FileState.corrupt = none ∧
      countStoryElements FileState.corrupt = 0) ∧
    ((∃ err, voteStory FileState.corrupt 0 VoteField.love =
        Except.error err) ↔
      (FileState.corrupt = FileState.absent ∨
        FileState.corrupt = FileState.corrupt)) :=
  ⟨Or.inr rfl,
    (claim_C3_amended_error_boundary FileState.corrupt 0 VoteField.love).1
      (Or.inr rfl),
    (claim_C3_amended_error_boundary FileState.corrupt 0 VoteField.love).2⟩

/-- C5: in every store state reachable from a fresh `initialize()` by any
sequence of votes, `get(id)` for an in-range id returns a record whose id
field equals the requested id. -/
theorem claim_C5_positional_ids (s : FileState) (hs : Reachable s)
    (id : Int) (h0 : 0 ≤ id) (h1 : id < (countStoryElements s : Int)) :
    ∃ e, getStoryElement s id = some e ∧ (e.id : Int) = id := by
  obtain ⟨d, rfl, hp⟩ := reachable_valid_posIds s hs
  have hcount : countStoryElements (FileState.valid d) = d.length := rfl
  rw [hcount] at h1
  have hlt : id.toNat < d.length := by omega
  obtain ⟨e, he⟩ : ∃ e, d[id.toNat]? = some e :=
    ⟨d[id.toNat], List.getElem?_eq_getElem hlt⟩
  refine ⟨e, ?_, ?_⟩
  · simp only [getStoryElement]
    rw [if_pos ⟨h0, h1⟩]
    exact he
  · have := hp id.toNat e he
    omega

/-- C5 witness: the theorem applied to the freshly initialized store (a
concrete choice of random draws) at id 3. -/
theorem claim_C5_witness :
    Reachable (initStoryElements FileState.absent pickL pickS) ∧
    (0 : Int) ≤ 3 ∧
    (3 : Int) <
      (countStoryElements (initStoryElements FileState.absent pickL pickS) :
        Int) ∧
    ∃ e, getStoryElement (initStoryElements FileState.absent pickL pickS) 3 =
        some e ∧ (e.id : Int) = 3 :=
  ⟨Reachable.init pickL pickS, by decide, by decide,
    claim_C5_positional_ids _ (Reachable.init pickL pickS) 3 (by decide)
      (by decide)⟩

/-- C9: counters are monotonically non-decreasing in every reachable
state: re-running `initialize()` leaves the state untouched, and every
successful vote leaves each record with counters at least as large as
before (read operations are pure and do not change the state). -/
theorem claim_C9_counters_monotone (s : FileState) (hs : Reachable s) :
    (∀ (loves : Fin 15 → Fin 48) (skips : Fin 8 → Fin 48),
      initStoryElements s loves skips = s) ∧
    (∀ (id : Int) (f : VoteField) (s' : FileState) (v : Option Nat),
      voteStory s id f = Except.ok (s', v) →
      ∀ (i : Nat) (e : StoryElement), (readStoryFile s)[i]? = some e →
        ∃ e', (readStoryFile s')[i]? = some e' ∧
          e.love ≤ e'.love ∧ e.skip ≤ e'.skip) := by
  obtain ⟨d, rfl, -⟩ := reachable_valid_posIds s hs
  constructor
  · intro loves skips
    rfl
  · intro id f s' v hv i e he
    have he' : d[i]? = some e := he
    simp only [voteStory, jsonLoad] at hv
    split at hv
    · rw [Except.ok.injEq, Prod.mk.injEq] at hv
      obtain ⟨hs', -⟩ := hv
      subst hs'
      by_cases hij : i = id.toNat
      · subst hij
        refine ⟨incField f e, ?_, love_le_incField f e,
          skip_le_incField f e⟩
        show (incAt d id.toNat f)[id.toNat]? = some (incField f e)
        rw [incAt_getElem?_self, he']
        rfl
      · refine ⟨e, ?_, le_refl _, le_refl _⟩
        show (incAt d id.toNat f)[i]? = some e
        rw [incAt_getElem?_ne d id.toNat i f hij]
        exact he'
    · rw [Except.ok.injEq, Prod.mk.injEq] at hv
      obtain ⟨hs', -⟩ := hv
      subst hs'
      exact ⟨e, he, le_refl _, le_refl _⟩

/-- C9 witness: the theorem applied to the freshly initialized store. -/
theorem claim_C9_witness :
    (∀ (loves : Fin 15 → Fin 48) (skips : Fin 8 → Fin 48),
      initStoryElements (initStoryElements FileState.absent pickL pickS)
        loves skips = initStoryElements FileState.absent pickL pickS) ∧
    (∀ (id : Int) (f : VoteField) (s' : FileState) (v : Option Nat),
      voteStory (initStoryElements FileState.absent pickL pickS) id f =
        Except.ok (s', v) →
      ∀ (i : Nat) (e : StoryElement),
        (readStoryFile (initStoryElements FileState.absent pickL pickS))[i]? =
          some e →
        ∃ e', (readStoryFile s')[i]? = some e' ∧
          e.love ≤ e'.love ∧ e.skip ≤ e'.skip) :=
  claim_C9_counters_monotone _ (Reachable.init pickL pickS)
